import Mathlib

/-!
Verification of the AS-Plugins setup wizard (scripts/setup/) against its
natural-language specification.

The Python sources are shallowly embedded:

* Python `dict[str, str]` values become association lists (`EnvDict`) with
  first-match lookup; `dict.__setitem__` replaces the first matching entry
  in place (preserving insertion order) or appends, exactly as a Python
  dict behaves when its keys are unique.
* The network is an explicit oracle (`World`): validators receive a
  function from requests to outcomes, so that theorems quantifying over
  the oracle express "independent of the network".
* Interactive input is an explicit list of input lines consumed in order;
  a collection run returns `none` when the input list is exhausted while a
  prompt still demands a value (the Python code would keep blocking).
-/

namespace Setup

/-! ## Python dict model -/

abbrev EnvDict := List (String × String)

/-- First-match lookup, the semantics of `d[k]` / `d.get(k)` for a Python
dict (whose keys are unique). -/
def dictFind {α : Type} : List (String × α) → String → Option α
  | [], _ => none
  | (k', v) :: rest, k => if k' = k then some v else dictFind rest k

/-- `d.get(k, dflt)`. -/
def dictGetD (d : EnvDict) (k dflt : String) : String :=
  (dictFind d k).getD dflt

/-- `k in d`. -/
def dictHasKey {α : Type} (d : List (String × α)) (k : String) : Bool :=
  (dictFind d k).isSome

/-- `d[k] = v`: replace the first entry with key `k`, else append. -/
def dictSet : EnvDict → String → String → EnvDict
  | [], k, v => [(k, v)]
  | (k', v') :: rest, k, v =>
    if k' = k then (k, v) :: rest else (k', v') :: dictSet rest k v

/-- `d.update(src)`: set every entry of `src` into `d`, in order. -/
def dictUpdate (d src : EnvDict) : EnvDict :=
  src.foldl (fun acc kv => dictSet acc kv.1 kv.2) d

/-! ## Python string helpers -/

/-- The whitespace characters removed by Python's `str.strip()`. -/
def pyIsSpace (c : Char) : Bool :=
  c = ' ' || c = '\t' || c = '\n' || c = '\x0d' || c = '\x0b' || c = '\x0c'

/-- `s.strip()`. -/
def pyStrip (s : String) : String :=
  ⟨((s.data.dropWhile pyIsSpace).reverse.dropWhile pyIsSpace).reverse⟩

/-- `s.rstrip("/")`. -/
def rstripSlash (s : String) : String :=
  ⟨(s.data.reverse.dropWhile (· = '/')).reverse⟩

/-- `s.startswith(p)`. -/
def pyStartsWith (s p : String) : Bool :=
  p.data.isPrefixOf s.data

/-- `needle in hay` for Python strings (substring containment). -/
def pyContains (hay needle : String) : Bool :=
  go hay.data
where
  go : List Char → Bool
    | [] => needle.data.isEmpty
    | c :: rest => needle.data.isPrefixOf (c :: rest) || go rest

/-- Strip an exact leading character sequence, or fail. -/
def dropPrefixCh : List Char → List Char → Option (List Char)
  | s, [] => some s
  | [], _ :: _ => none
  | c :: s, p :: ps => if c = p then dropPrefixCh s ps else none

/-- Strip an exact trailing character sequence, or fail. -/
def dropSuffixCh (s p : List Char) : Option (List Char) :=
  (dropPrefixCh s.reverse p.reverse).map List.reverse

/-! ## credentials.py : input validators -/

/-- Characters allowed in the site label of the Atlassian URL regex,
`[a-zA-Z0-9-]`. -/
def isAtlassianLabelChar (c : Char) : Bool :=
  c.isAlpha || c.isDigit || c = '-'

/-- `re.match(r"^https://[a-zA-Z0-9-]+\.atlassian\.net$", u)` succeeds.
The stripped input contains no trailing newline, so `$` is end-of-string. -/
def atlassianPattern (u : String) : Bool :=
  match dropPrefixCh u.data "https://".data with
  | none => false
  | some rest =>
    match dropSuffixCh rest ".atlassian.net".data with
    | none => false
    | some label => !label.isEmpty && label.all isAtlassianLabelChar

/-- The normalization performed by `validate_atlassian_url` before its
checks: strip whitespace, strip trailing `/`, prepend `https://` when the
value does not start with `http`. -/
def normalizeAtlassianUrl (url : String) : String :=
  let u := rstripSlash (pyStrip url)
  if pyStartsWith u "http" then u else "https://" ++ u

/-- `credentials.validate_atlassian_url`. -/
def validate_atlassian_url (url : String) : Bool × String :=
  if url = "" then (false, "URL is required")
  else
    let u := normalizeAtlassianUrl url
    if !pyContains u ".atlassian.net" then
      (false, "Must be an Atlassian Cloud URL (*.atlassian.net)")
    else if !atlassianPattern u then
      (false, "Invalid Atlassian URL format")
    else (true, u)

/-- Characters of the host class `[a-zA-Z0-9.-]` in the generic URL regex. -/
def isHostChar (c : Char) : Bool :=
  c.isAlpha || c.isDigit || c = '.' || c = '-'

/-- `re.match(r"^https?://[a-zA-Z0-9.-]+(?::\d+)?(?:/.*)?$", u)` succeeds. -/
def genericUrlPattern (u : String) : Bool :=
  let afterScheme :=
    match dropPrefixCh u.data "https://".data with
    | some r => some r
    | none => dropPrefixCh u.data "http://".data
  match afterScheme with
  | none => false
  | some rest =>
    let hostPort := rest.takeWhile (· ≠ '/')
    let tail := rest.drop hostPort.length
    -- tail is empty or starts with '/', matching `(?:/.*)?$`
    (tail.isEmpty || tail.head? = some '/') &&
      match hostPort.splitOn ':' with
      | [host] => !host.isEmpty && host.all isHostChar
      | [host, port] =>
        !host.isEmpty && host.all isHostChar &&
          (!port.isEmpty && port.all Char.isDigit)
      | _ => false

/-- `credentials.validate_url`. -/
def validate_url (url : String) : Bool × String :=
  if url = "" then (false, "URL is required")
  else
    let u := rstripSlash (pyStrip url)
    let u := if pyStartsWith u "http" then u else "https://" ++ u
    if !genericUrlPattern u then (false, "Invalid URL format")
    else (true, u)

/-- Characters of the local-part class `[a-zA-Z0-9._%+-]` of the email
regex. -/
def isEmailLocalChar (c : Char) : Bool :=
  c.isAlpha || c.isDigit || c = '.' || c = '_' || c = '%' || c = '+' || c = '-'

/-- `re.match(r"^[a-zA-Z0-9._%+-]+@[a-zA-Z0-9.-]+\.[a-zA-Z]{2,}$", e)`
succeeds.  Neither character class contains `@`, so the string splits at
its unique `@`; the `\.` must be the last dot because `[a-zA-Z]{2,}$`
forbids dots after it. -/
def emailPattern (e : String) : Bool :=
  match e.data.splitOn '@' with
  | [localPart, domain] =>
    (!localPart.isEmpty && localPart.all isEmailLocalChar) &&
      match domain.reverse.splitOn '.' with
      | tldRev :: domRev1 :: domRevRest =>
        let tld := tldRev.reverse
        let dom := (List.intercalate ['.'] (domRev1 :: domRevRest)).reverse
        !dom.isEmpty && dom.all isHostChar &&
          (tld.length ≥ 2 && tld.all Char.isAlpha)
      | _ => false
  | _ => false

/-- `s.lower()` (inputs here are ASCII). -/
def pyLower (s : String) : String := ⟨s.data.map Char.toLower⟩

/-- `credentials.validate_email`. -/
def validate_email (email : String) : Bool × String :=
  if email = "" then (false, "Email is required")
  else
    let e := pyLower (pyStrip email)
    if !emailPattern e then (false, "Invalid email format")
    else (true, e)

/-! ## credentials.py : PLATFORM_CONFIGS -/

/-- Validator kinds named in `PLATFORM_CONFIGS` prompt entries; the
closed keys of the `VALIDATORS` lookup table. -/
inductive ValidatorKind where
  | atlassian_url
  | url
  | email
deriving DecidableEq, Repr

/-- `VALIDATORS[kind]`. -/
def runValidator : ValidatorKind → String → Bool × String
  | .atlassian_url, s => validate_atlassian_url s
  | .url, s => validate_url s
  | .email, s => validate_email s

/-- One entry of a platform's `"prompts"` dict. -/
structure PromptConfig where
  label : String
  placeholder : String := ""
  validator : Option ValidatorKind := none
  hidden : Bool := false
  help : Option String := none
  default : String := ""
  optional : Bool := false
deriving Repr

/-- One value of `PLATFORM_CONFIGS`. -/
structure PlatformConfig where
  title : String
  installation_type : Option String := none
  cli_name : Option String := none
  required_vars : List String
  optional_vars : List String := []
  url_var : String
  prompts : List (String × PromptConfig)
deriving Repr

def confluenceConfig : PlatformConfig where
  title := "Confluence Configuration"
  required_vars := ["CONFLUENCE_SITE_URL", "CONFLUENCE_EMAIL", "CONFLUENCE_API_TOKEN"]
  url_var := "CONFLUENCE_SITE_URL"
  prompts :=
    [("CONFLUENCE_SITE_URL",
      { label := "Site URL", placeholder := "https://your-site.atlassian.net",
        validator := some .atlassian_url }),
     ("CONFLUENCE_EMAIL",
      { label := "Email", placeholder := "user@example.com",
        validator := some .email }),
     ("CONFLUENCE_API_TOKEN",
      { label := "API Token", hidden := true,
        help := some "Create at: https://id.atlassian.com/manage-profile/security/api-tokens" })]

def jiraConfig : PlatformConfig where
  title := "JIRA Configuration"
  required_vars := ["JIRA_SITE_URL", "JIRA_EMAIL", "JIRA_API_TOKEN"]
  url_var := "JIRA_SITE_URL"
  prompts :=
    [("JIRA_SITE_URL",
      { label := "Site URL", placeholder := "https://your-site.atlassian.net",
        validator := some .atlassian_url }),
     ("JIRA_EMAIL",
      { label := "Email", placeholder := "user@example.com",
        validator := some .email }),
     ("JIRA_API_TOKEN",
      { label := "API Token", hidden := true,
        help := some "Create at: https://id.atlassian.com/manage-profile/security/api-tokens" })]

def splunkConfig : PlatformConfig where
  title := "Splunk Configuration"
  required_vars := ["SPLUNK_SITE_URL", "SPLUNK_USERNAME", "SPLUNK_PASSWORD"]
  url_var := "SPLUNK_SITE_URL"
  prompts :=
    [("SPLUNK_SITE_URL",
      { label := "Splunk URL", placeholder := "https://splunk.example.com:8089",
        validator := some .url }),
     ("SPLUNK_USERNAME", { label := "Username", placeholder := "admin" }),
     ("SPLUNK_PASSWORD", { label := "Password", hidden := true })]

def gitlabConfig : PlatformConfig where
  title := "GitLab Configuration"
  installation_type := some "cli"
  cli_name := some "glab"
  required_vars := ["GITLAB_TOKEN"]
  optional_vars := ["GITLAB_HOST"]
  url_var := "GITLAB_HOST"
  prompts :=
    [("GITLAB_HOST",
      { label := "GitLab Host", placeholder := "https://gitlab.com",
        default := "https://gitlab.com", validator := some .url,
        help := some "Press Enter for gitlab.com, or enter your self-hosted URL",
        optional := true }),
     ("GITLAB_TOKEN",
      { label := "Personal Access Token", hidden := true,
        help := some "Create at: https://gitlab.com/-/user_settings/personal_access_tokens (scopes: api)" })]

/-- `credentials.PLATFORM_CONFIGS`, in its Python insertion order. -/
def PLATFORM_CONFIGS : List (String × PlatformConfig) :=
  [("confluence", confluenceConfig), ("jira", jiraConfig),
   ("splunk", splunkConfig), ("gitlab", gitlabConfig)]

/-- Lookup in `PLATFORM_CONFIGS` (first match; keys are unique). -/
def platformConfig? (platform : String) : Option PlatformConfig :=
  (PLATFORM_CONFIGS.find? (fun pc => pc.1 = platform)).map Prod.snd

/-! ## main.py : detect_existing_config -/

/-- A credential source: `(label, env_dict)`. -/
abbrev Source := String × EnvDict

/-- The merge step of `main.detect_existing_config` (lines 83-86):
`merged_env = {}` then `merged_env.update(env_dict)` for each source in
`reversed(sources)`, so later (lower-priority) sources are applied first
and earlier sources overwrite them. -/
def merge_sources (sources : List Source) : EnvDict :=
  sources.reverse.foldl (fun acc s => dictUpdate acc s.2) []

/-- Truthiness of `merged_env.get(var)`: false for a missing key and for
an empty value. -/
def truthyGet (d : EnvDict) (k : String) : Bool :=
  dictGetD d k "" != ""

/-- The configured-platform step of `main.detect_existing_config`
(lines 88-95): a platform is included iff `all(merged_env.get(var) for
var in required_vars)`, and maps to `{var: merged_env[var] ...}`. -/
def determine_configured (merged : EnvDict) : List (String × EnvDict) :=
  PLATFORM_CONFIGS.foldl
    (fun acc pc =>
      if pc.2.required_vars.all (fun v => truthyGet merged v) then
        acc ++ [(pc.1, pc.2.required_vars.map (fun v => (v, dictGetD merged v "")))]
      else acc)
    []

/-! ## main.py : the persist-time merge (main, lines 656-665) -/

/-- `new_env_vars = home_env.copy()`, then for every platform's collected
`creds` and every `(key, value)` in them:
`if key not in home_env or not home_env[key]: new_env_vars[key] = value`.
The guard ("missing, or present but falsy") is exactly
`home_env.get(key, "") == ""`.  `home_env` is the baseline loaded from
`~/.env` (its loader lives in the repository's `env_file` module and is
taken here as an arbitrary mapping). -/
def prepare_env_vars (home_env : EnvDict)
    (credentials : List (String × EnvDict)) : EnvDict :=
  credentials.foldl
    (fun nev pcreds =>
      pcreds.2.foldl
        (fun nev kv =>
          if dictGetD home_env kv.1 "" = "" then dictSet nev kv.1 kv.2
          else nev)
        nev)
    home_env

/-! ## validate.py : network model

The live network is an oracle.  A GET request carries the target URL and
the `email`/`token` pair from which the code builds its Basic
`Authorization` header (the base64 encoding is a function of that pair,
so keying the oracle on the pair loses no behaviour).  `urljoin(url + "/",
path)` is modelled as concatenation, which agrees with Python for the
scheme-qualified base URLs this wizard produces. -/

def urljoin_slash (base path : String) : String := base ++ path

/-- A `requests.get` call as issued by the Confluence/JIRA validators. -/
structure GetRequest where
  url : String
  email : String
  token : String
deriving DecidableEq, Repr

/-- The JSON body consulted on HTTP 200: `displayName` / `username`
fields of `response.json()` (absent keys are `none`). -/
structure UserJson where
  displayName : Option String := none
  username : Option String := none
deriving DecidableEq, Repr

/-- Outcome of one `requests.get`: a response with a status code and a
parseable (`some`) or unparseable (`none`, i.e. `response.json()`
raises) body, or one of the exception classes the code distinguishes. -/
inductive NetOutcome where
  | resp (status : Nat) (json : Option UserJson)
  | timeout
  | connError
  | exn
deriving DecidableEq, Repr

abbrev HttpOracle := GetRequest → NetOutcome

/-- `validate.validate_confluence`, endpoint list (line 42-46). -/
def confluence_endpoints : List (String × String) :=
  [("wiki/rest/api/user/current", "user"),
   ("wiki/api/v2/spaces?limit=1", "spaces"),
   ("wiki/rest/api/space?limit=1", "spaces")]

/-- The code after the endpoint loop of `validate_confluence`
(lines 82-89), keyed on the last recorded status: `403`, then `404`,
then any truthy (non-zero) status, then the generic message. -/
def confluenceFinal : Option Nat → Bool × String
  | some s =>
    if s = 403 then (false, "Access denied - check API token permissions")
    else if s = 404 then (false, "Confluence not found at this URL")
    else if s ≠ 0 then (false, "API returned status " ++ toString s)
    else (false, "Could not validate credentials")
  | none => (false, "Could not validate credentials")

/-- The endpoint loop of `validate_confluence` (lines 49-80).
Each iteration issues the request; a response records its status in
`last_status` before the 200 body is parsed; 200 with a parseable body
returns success (with the display name on the `"user"` endpoint); 401
returns invalid immediately; every other status — and a swallowed generic
exception — falls through to the next endpoint; timeout and connection
errors return their specific message immediately. -/
def confluenceLoop (net : HttpOracle) (url email token : String) :
    List (String × String) → Option Nat → Bool × String
  | [], last_status => confluenceFinal last_status
  | (path, endpoint_type) :: rest, last_status =>
    match net ⟨urljoin_slash (url ++ "/") path, email, token⟩ with
    | .timeout => (false, "Connection timed out")
    | .connError => (false, "Could not connect to server")
    | .exn => confluenceLoop net url email token rest last_status
    | .resp status json =>
      if status = 200 then
        match json with
        | none => confluenceLoop net url email token rest (some status)
        | some data =>
          if endpoint_type = "user" then
            let name := data.displayName.getD (data.username.getD "")
            if name ≠ "" then (true, "Connected as " ++ name)
            else (true, "Connected")
          else (true, "Connected")
      else if status = 401 then (false, "Invalid credentials (401 Unauthorized)")
      else confluenceLoop net url email token rest (some status)

/-- `validate.validate_confluence`. -/
def validate_confluence (net : HttpOracle) (url email token : String) :
    Bool × String :=
  confluenceLoop net url email token confluence_endpoints none

/-- `validate.validate_jira`, endpoint list (line 113-116). -/
def jira_endpoints : List (String × String) :=
  [("rest/api/3/myself", "user"), ("rest/api/2/myself", "user")]

/-- The code after the endpoint loop of `validate_jira` (147-151). -/
def jiraFinal : Option Nat → Bool × String
  | some s =>
    if s = 404 then (false, "JIRA not found at this URL")
    else if s ≠ 0 then (false, "API returned status " ++ toString s)
    else (false, "Could not validate credentials")
  | none => (false, "Could not validate credentials")

/-- The endpoint loop of `validate_jira` (lines 119-145); unlike
Confluence, 403 is immediately fatal. -/
def jiraLoop (net : HttpOracle) (url email token : String) :
    List (String × String) → Option Nat → Bool × String
  | [], last_status => jiraFinal last_status
  | (path, _endpoint_type) :: rest, last_status =>
    match net ⟨urljoin_slash (url ++ "/") path, email, token⟩ with
    | .timeout => (false, "Connection timed out")
    | .connError => (false, "Could not connect to server")
    | .exn => jiraLoop net url email token rest last_status
    | .resp status json =>
      if status = 200 then
        match json with
        | none => jiraLoop net url email token rest (some status)
        | some data =>
          (true, "Connected as " ++ data.displayName.getD "Unknown")
      else if status = 401 then (false, "Invalid credentials (401 Unauthorized)")
      else if status = 403 then (false, "Access denied - check API token permissions")
      else jiraLoop net url email token rest (some status)

/-- `validate.validate_jira`. -/
def validate_jira (net : HttpOracle) (url email token : String) :
    Bool × String :=
  jiraLoop net url email token jira_endpoints none

/-! ## validate.py : Splunk -/

/-- The `verify=` argument of `requests.post`: a CA bundle path, `True`,
or `False`. -/
inductive VerifySetting where
  | cert (path : String)
  | yes
  | no
deriving DecidableEq, Repr

/-- A `requests.post` call as issued by `validate_splunk`. -/
structure SplunkRequest where
  url : String
  username : String
  password : String
  verify : VerifySetting
deriving DecidableEq, Repr

/-- Outcome of one Splunk POST. -/
inductive SplunkOutcome where
  | resp (status : Nat)
  | sslError (msg : String)
  | timeout
  | connError
  | exn (msg : String)
deriving DecidableEq, Repr

abbrev SplunkOracle := SplunkRequest → SplunkOutcome

/-- `validate._get_splunk_ssl_verify`: `none` means "try both".
`isFile` models `os.path.isfile`. -/
def get_splunk_ssl_verify (environ : EnvDict) (isFile : String → Bool) :
    Option VerifySetting :=
  let ca_cert := dictGetD environ "SPLUNK_CA_CERT" ""
  if ca_cert ≠ "" && isFile ca_cert then some (.cert ca_cert)
  else
    let verify_ssl := pyLower (dictGetD environ "SPLUNK_VERIFY_SSL" "")
    if verify_ssl = "false" || verify_ssl = "0" || verify_ssl = "no" then
      some .no
    else if verify_ssl = "true" || verify_ssl = "1" || verify_ssl = "yes" then
      some .yes
    else none

/-- Mapping a completed Splunk request outcome to the returned pair: the
status handling of lines 228-234 plus the `except` clauses 236-243.  An
`sslError` reaching this point is the one caught by the outer handler. -/
def splunkHandle : SplunkOutcome → Bool × String
  | .resp 200 => (true, "Connected")
  | .resp 401 => (false, "Invalid credentials (401 Unauthorized)")
  | .resp s => (false, "API returned status " ++ toString s)
  | .sslError e =>
    (false, "SSL error: " ++ e ++ ". Set SPLUNK_VERIFY_SSL=false for self-signed certs")
  | .timeout => (false, "Connection timed out")
  | .connError => (false, "Could not connect to server")
  | .exn e => (false, "Error: " ++ e)

/-- `validate.validate_splunk`.  When the SSL policy is "try both", an
`SSLError` from the verified attempt triggers one silent retry without
verification; any failure of the retry (or of a single-attempt call)
goes to the outer handlers. -/
def validate_splunk (net : SplunkOracle) (environ : EnvDict)
    (isFile : String → Bool) (url username password : String) :
    Bool × String :=
  let api_url := urljoin_slash (url ++ "/") "services/auth/login"
  match get_splunk_ssl_verify environ isFile with
  | none =>
    match net ⟨api_url, username, password, .yes⟩ with
    | .sslError _ => splunkHandle (net ⟨api_url, username, password, .no⟩)
    | r => splunkHandle r
  | some v => splunkHandle (net ⟨api_url, username, password, v⟩)

/-! ## validate.py : dispatch -/

/-- The ambient effects a validation run can touch: the HTTP oracle for
Confluence/JIRA, the POST oracle for Splunk, `os.environ`, and
`os.path.isfile`. -/
structure World where
  http : HttpOracle
  splunkPost : SplunkOracle
  environ : EnvDict
  isFile : String → Bool

/-- `validate.validate_credentials`: stringly-keyed dispatch; any other
platform name — including `"gitlab"` — takes the final branch. -/
def validate_credentials (w : World) (platform : String)
    (credentials : EnvDict) : Bool × String :=
  if platform = "confluence" then
    validate_confluence w.http
      (dictGetD credentials "CONFLUENCE_SITE_URL" "")
      (dictGetD credentials "CONFLUENCE_EMAIL" "")
      (dictGetD credentials "CONFLUENCE_API_TOKEN" "")
  else if platform = "jira" then
    validate_jira w.http
      (dictGetD credentials "JIRA_SITE_URL" "")
      (dictGetD credentials "JIRA_EMAIL" "")
      (dictGetD credentials "JIRA_API_TOKEN" "")
  else if platform = "splunk" then
    validate_splunk w.splunkPost w.environ w.isFile
      (dictGetD credentials "SPLUNK_URL" "")
      (dictGetD credentials "SPLUNK_USERNAME" "")
      (dictGetD credentials "SPLUNK_PASSWORD" "")
  else (false, "Unknown platform: " ++ platform)

/-- A concrete inert world for witnesses: every request raises a generic
exception and no file exists. -/
def stubWorld : World where
  http := fun _ => .exn
  splunkPost := fun _ => .exn "boom"
  environ := []
  isFile := fun _ => false

/-- First Confluence endpoint URL for a site URL. -/
def confluenceUrl1 (url : String) : String :=
  urljoin_slash (url ++ "/") "wiki/rest/api/user/current"

/-- Second Confluence endpoint URL for a site URL. -/
def confluenceUrl2 (url : String) : String :=
  urljoin_slash (url ++ "/") "wiki/api/v2/spaces?limit=1"

/-- Third Confluence endpoint URL for a site URL. -/
def confluenceUrl3 (url : String) : String :=
  urljoin_slash (url ++ "/") "wiki/rest/api/space?limit=1"

/-- Witness oracle: 404 on the first Confluence endpoint, 200 elsewhere. -/
def netFallback : HttpOracle := fun r =>
  if r.url = confluenceUrl1 "https://c.atlassian.net" then .resp 404 none
  else .resp 200 (some {})

/-- Witness oracle: 401 everywhere. -/
def netAll401 : HttpOracle := fun _ => .resp 401 none

/-- Witness oracle: 403 on the first Confluence endpoint, then 401. -/
def net403Then401 : HttpOracle := fun r =>
  if r.url = confluenceUrl1 "https://c.atlassian.net" then .resp 403 none
  else .resp 401 none

/-- Counterexample oracle: 404 on the first two Confluence endpoints and
403 on the third. -/
def netLast403 : HttpOracle := fun r =>
  if r.url = confluenceUrl3 "https://c.atlassian.net" then .resp 403 none
  else .resp 404 none

/-- Witness oracle: 403 on the first Confluence endpoint, 200 after. -/
def net403Then200 : HttpOracle := fun r =>
  if r.url = confluenceUrl1 "https://c.atlassian.net" then .resp 403 none
  else .resp 200 (some {})

/-- Witness oracle: plain statuses 500, 404, 410 on the three Confluence
endpoints. -/
def netStatuses : HttpOracle := fun r =>
  if r.url = confluenceUrl1 "https://c.atlassian.net" then .resp 500 none
  else if r.url = confluenceUrl2 "https://c.atlassian.net" then .resp 404 none
  else .resp 410 none

/-! ## main.py : validate_existing_config / show_validation_results -/

/-- One value of the dict returned by `main.validate_existing_config`. -/
structure VStatus where
  valid : Bool
  message : String
  url : String
deriving DecidableEq, Repr

/-- The display URL computed in `validate_existing_config` (131-135). -/
def displayUrl (creds : EnvDict) (url_var : String) : String :=
  let url := dictGetD creds url_var ""
  if url ≠ "" then
    ⟨(((url.replace "https://" "").replace "http://" "").data.reverse.dropWhile
        (· = '/')).reverse⟩
  else url

/-- `main.validate_existing_config`: validate every configured platform
and record `(valid, message, url)` for it. -/
def validate_existing_config (w : World)
    (configured : List (String × EnvDict)) : List (String × VStatus) :=
  configured.foldl
    (fun status pc =>
      let res := validate_credentials w pc.1 pc.2
      let url_var := match platformConfig? pc.1 with
        | some cfg => cfg.url_var
        | none => ""
      status ++ [(pc.1, ⟨res.1, res.2, displayUrl pc.2 url_var⟩)])
    []

/-- The fixed display order of `show_validation_results` (line 160). -/
def all_platforms : List String := ["confluence", "jira", "splunk", "gitlab"]

/-- The boolean logic of `main.show_validation_results` (146-191): walk
the four platforms; a present entry marks `any_configured` and an invalid
one clears `all_valid`; platforms absent from `validation_status` print
"(not configured)" and change neither flag; with nothing configured the
function returns `False`, otherwise `all_valid`.  (`configured` is taken
but not consulted by the logic, as in the source.) -/
def show_validation_results (validation_status : List (String × VStatus))
    (_configured : List (String × EnvDict)) : Bool :=
  let flags := all_platforms.foldl
    (fun (acc : Bool × Bool) platform =>
      match dictFind validation_status platform with
      | some st => (acc.1 && st.valid, true)
      | none => acc)
    (true, false)
  if !flags.2 then false else flags.1

/-- The `--validate-only` branch of `main.main` (542-544):
`sys.exit(0 if all_valid else 1)`. -/
def validate_only_exit_code (validation_status : List (String × VStatus))
    (configured : List (String × EnvDict)) : Nat :=
  if show_validation_results validation_status configured then 0 else 1

/-! ## credentials.py : collect_credentials -/

/-- Modelled from the spec: `resolve_env_var` is imported from the
repository's `env_file` module, whose source is not provided.  Per
§4.3 of the spec ("resolve the field by scanning sources in priority
order; if found, skip interactive prompting") it scans the ordered
sources and returns the first source's value together with that source's
label, or empty strings when no source provides the variable.  (The
caller guards the result with Python truthiness, so an empty value
behaves the same as "not found".) -/
def resolve_env_var (var_name : String) : List Source → String × String
  | [] => ("", "")
  | (label, env_dict) :: rest =>
    match dictFind env_dict var_name with
    | some v => if v ≠ "" then (v, label) else resolve_env_var var_name rest
    | none => resolve_env_var var_name rest

/-- One round of the `while True` prompt loop of `collect_credentials`
(lines 226-254), consuming one line of input per iteration.  An empty
line adopts the suggested default (for `getpass` this is the
`if not value and default` branch, for `Prompt.ask` the `default=`
argument); an empty result for a non-optional field re-prompts; an
optional empty result adopts the static config default when one exists;
a value with a failing validator re-prompts; a passing validator
replaces the value by its normalization. -/
def promptLoop (default : String) (pc : PromptConfig) :
    List String → Option (String × List String)
  | [] => none
  | raw :: restInputs =>
    let value := if raw = "" then default else raw
    let value :=
      if value = "" && pc.optional && pc.default ≠ "" then pc.default else value
    if value = "" && !pc.optional then promptLoop default pc restInputs
    else
      match pc.validator with
      | some vk =>
        if value ≠ "" then
          match runValidator vk value with
          | (true, result) => some (result, restInputs)
          | (false, _) => promptLoop default pc restInputs
        else some (value, restInputs)
      | none => some (value, restInputs)

/-- The per-field body of `collect_credentials` over the platform's
prompt list, threading the accumulated credentials and remaining input
lines.  A field resolved to a truthy value from `sources` is taken
as-is; otherwise the interactive loop runs with
`existing_env.get(var_name, "") or config_default` as the suggested
default, and only a truthy final value is stored. -/
def collectFields (existing_env : EnvDict) (sources : List Source) :
    List (String × PromptConfig) → EnvDict → List String →
    Option (EnvDict × List String)
  | [], credentials, inputs => some (credentials, inputs)
  | (var_name, pc) :: rest, credentials, inputs =>
    let resolved :=
      if !sources.isEmpty then (resolve_env_var var_name sources).1 else ""
    if resolved ≠ "" then
      collectFields existing_env sources rest
        (dictSet credentials var_name resolved) inputs
    else
      let existing := dictGetD existing_env var_name ""
      let default := if existing ≠ "" then existing else pc.default
      match promptLoop default pc inputs with
      | none => none
      | some (value, inputs') =>
        collectFields existing_env sources rest
          (if value ≠ "" then dictSet credentials var_name value else credentials)
          inputs'

/-- `credentials.collect_credentials`, with the interactive terminal
replaced by the explicit `inputs` line list.  Returns `none` when the
platform is unknown (a Python `KeyError`) or when the input list runs
out mid-prompt. -/
def collect_credentials (inputs : List String) (platform : String)
    (existing_env : EnvDict) (sources : List Source) :
    Option (EnvDict × List String) :=
  match platformConfig? platform with
  | none => none
  | some config => collectFields existing_env sources config.prompts [] inputs

/-! ## Library lemmas about the dict and string models -/

theorem dictFind_dictSet_self (d : EnvDict) (k v : String) :
    dictFind (dictSet d k v) k = some v := by
  induction d with
  | nil => simp [dictSet, dictFind]
  | cons hd tl ih =>
    by_cases h : hd.1 = k
    · simp [dictSet, dictFind, h]
    · simp [dictSet, dictFind, h, ih]

theorem dictFind_dictSet_ne (d : EnvDict) (k k' v : String) (h : k' ≠ k) :
    dictFind (dictSet d k' v) k = dictFind d k := by
  induction d with
  | nil => simp [dictSet, dictFind, h]
  | cons hd tl ih =>
    by_cases hk : hd.1 = k'
    · simp [dictSet, dictFind, hk, h]
    · simp only [dictSet, hk, if_false]
      by_cases hk2 : hd.1 = k
      · simp [dictFind, hk2]
      · simp [dictFind, hk2, ih]

theorem dictFind_eq_none_of_not_mem {α : Type} (d : List (String × α)) (k : String)
    (h : k ∉ d.map Prod.fst) : dictFind d k = none := by
  induction d with
  | nil => rfl
  | cons hd tl ih =>
    simp only [List.map_cons, List.mem_cons] at h
    push_neg at h
    have hk : hd.1 ≠ k := fun he => h.1 he.symm
    simp [dictFind, hk, ih h.2]

theorem dictFind_mem {α : Type} (d : List (String × α)) (k : String) (v : α)
    (hnd : (d.map Prod.fst).Nodup) (hm : (k, v) ∈ d) :
    dictFind d k = some v := by
  induction d with
  | nil => simp at hm
  | cons hd tl ih =>
    simp only [List.map_cons, List.nodup_cons] at hnd
    rcases List.mem_cons.mp hm with h | h
    · simp [dictFind, ← h]
    · have hk : hd.1 ≠ k := by
        intro he
        exact hnd.1 (he ▸ List.mem_map_of_mem Prod.fst h)
      simp [dictFind, hk, ih hnd.2 h]

theorem dictFind_isSome_mem {α : Type} (d : List (String × α)) (k : String) :
    (dictFind d k).isSome = true ↔ k ∈ d.map Prod.fst := by
  induction d with
  | nil => simp [dictFind]
  | cons hd tl ih =>
    by_cases h : hd.1 = k
    · simp [dictFind, h]
    · have hk : k ≠ hd.1 := fun he => h he.symm
      simp [dictFind, h, ih, hk]

theorem dropPrefixCh_eq_some (s p r : List Char)
    (h : dropPrefixCh s p = some r) : s = p ++ r := by
  induction p generalizing s with
  | nil =>
    simp only [dropPrefixCh, Option.some.injEq] at h
    simp [h]
  | cons hd tl ih =>
    cases s with
    | nil => simp [dropPrefixCh] at h
    | cons c cs =>
      by_cases hc : c = hd
      · simp only [dropPrefixCh, hc, if_true] at h
        simp [hc, ih cs h]
      · simp [dropPrefixCh, hc] at h

theorem dropSuffixCh_eq_some (s p r : List Char)
    (h : dropSuffixCh s p = some r) : s = r ++ p := by
  unfold dropSuffixCh at h
  cases hp : dropPrefixCh s.reverse p.reverse with
  | none => rw [hp] at h; simp at h
  | some r' =>
    rw [hp] at h
    simp only [Option.map_some', Option.some.injEq] at h
    have hrev := dropPrefixCh_eq_some _ _ _ hp
    have hs : s.reverse.reverse = (p.reverse ++ r').reverse := by rw [← hrev]
    simp only [List.reverse_reverse, List.reverse_append] at hs
    rw [h] at hs
    exact hs

/-- The claim C2's own wording, for comparison with the implementation's
`merge_sources`: the merged mapping assigns each field the value of the
earliest-listed (highest-priority) source that defines it. -/
def specFirstDefined : List Source → String → Option String
  | [], _ => none
  | s :: rest, k =>
    match dictFind s.2 k with
    | some v => some v
    | none => specFirstDefined rest k

/-! ## Claim proofs -/

theorem foldlSet_guard_preserves (home : EnvDict) (field v : String)
    (hf : ¬ dictGetD home field "" = "")
    (creds : EnvDict) (acc : EnvDict) (h : dictFind acc field = some v) :
    dictFind
      (creds.foldl (fun nev kv =>
        if dictGetD home kv.1 "" = "" then dictSet nev kv.1 kv.2 else nev) acc)
      field = some v := by
  induction creds generalizing acc with
  | nil => simpa using h
  | cons kv rest ih =>
    simp only [List.foldl_cons]
    apply ih
    by_cases hc : dictGetD home kv.1 "" = ""
    · have hk : kv.1 ≠ field := fun he => hf (he ▸ hc)
      rw [if_pos hc, dictFind_dictSet_ne _ _ _ _ hk]
      exact h
    · rw [if_neg hc]
      exact h

/-- C1: when persisting collected credentials, a field for which the
baseline `~/.env` mapping already holds a non-empty value — in particular
a keychain-indirection string `TOKEN=$(...)` — keeps that baseline value
in the persisted mapping, whatever plaintext was freshly collected for
it. -/
theorem persist_keeps_nonempty_baseline (home_env : EnvDict)
    (credentials : List (String × EnvDict)) (field v : String)
    (hv : dictFind home_env field = some v) (hne : v ≠ "") :
    dictFind (prepare_env_vars home_env credentials) field = some v := by
  have hf : ¬ dictGetD home_env field "" = "" := by
    simp [dictGetD, hv, hne]
  unfold prepare_env_vars
  suffices hgen : ∀ (lst : List (String × EnvDict)) (acc : EnvDict),
      dictFind acc field = some v →
      dictFind
        (lst.foldl (fun nev pcreds =>
          pcreds.2.foldl (fun nev kv =>
            if dictGetD home_env kv.1 "" = "" then dictSet nev kv.1 kv.2
            else nev) nev) acc)
        field = some v by
    exact hgen credentials home_env hv
  intro lst
  induction lst with
  | nil => intro acc h; simpa using h
  | cons p rest ih =>
    intro acc h
    simp only [List.foldl_cons]
    exact ih _ (foldlSet_guard_preserves home_env field v hf p.2 acc h)

/-- C1 witness: a baseline holding a keychain-indirection value for
`TOKEN` keeps it when a freshly collected plaintext for `TOKEN` is
persisted. -/
theorem persist_keeps_nonempty_baseline_witness :
    dictFind
      (prepare_env_vars
        [("TOKEN", "$(security find-generic-password -s svc -a me -w)")]
        [("confluence", [("TOKEN", "plaintext123")])])
      "TOKEN" = some "$(security find-generic-password -s svc -a me -w)" :=
  persist_keeps_nonempty_baseline _ _ _ _ (by decide) (by decide)

theorem dictFind_dictUpdate (d src : EnvDict) (k : String)
    (hnd : (src.map Prod.fst).Nodup) :
    dictFind (dictUpdate d src) k =
      match dictFind src k with
      | some v => some v
      | none => dictFind d k := by
  induction src generalizing d with
  | nil => simp [dictUpdate, dictFind]
  | cons kv rest ih =>
    simp only [List.map_cons, List.nodup_cons] at hnd
    have h1 : dictUpdate d (kv :: rest) = dictUpdate (dictSet d kv.1 kv.2) rest := by
      simp [dictUpdate]
    rw [h1, ih _ hnd.2]
    by_cases hk : kv.1 = k
    · subst hk
      have hnone : dictFind rest kv.1 = none :=
        dictFind_eq_none_of_not_mem _ _ hnd.1
      simp [dictFind, hnone, dictFind_dictSet_self]
    · simp [dictFind, hk, dictFind_dictSet_ne _ _ _ _ hk]

theorem merge_sources_cons (s : Source) (rest : List Source) :
    merge_sources (s :: rest) = dictUpdate (merge_sources rest) s.2 := by
  simp [merge_sources, List.foldl_append]

/-- C2: merging sources in reverse priority order with overwriting makes
the merged mapping priority-stable — each field gets the value of the
earliest-listed source that defines it (source dicts, being Python
dicts, have unique keys). -/
theorem merge_sources_priority_stable (sources : List Source) (field : String)
    (hnd : ∀ s ∈ sources, (s.2.map Prod.fst).Nodup) :
    dictFind (merge_sources sources) field = specFirstDefined sources field := by
  induction sources with
  | nil => simp [merge_sources, specFirstDefined, dictFind]
  | cons s rest ih =>
    rw [merge_sources_cons, dictFind_dictUpdate _ _ _ (hnd s (by simp))]
    have ihh := ih (fun t ht => hnd t (List.mem_cons_of_mem _ ht))
    simp only [specFirstDefined]
    cases dictFind s.2 field <;> simp [ihh]

/-- C2 witness: on sources `[("shell", {A:1}), ("file1", {A:2, B:3})]`
the merged view is priority-stable, and concretely equals
`{A:1, B:3}`. -/
theorem merge_sources_priority_stable_witness :
    dictFind (merge_sources [("shell", [("A", "1")]), ("file1", [("A", "2"), ("B", "3")])]) "A"
        = specFirstDefined [("shell", [("A", "1")]), ("file1", [("A", "2"), ("B", "3")])] "A" ∧
      merge_sources [("shell", [("A", "1")]), ("file1", [("A", "2"), ("B", "3")])]
        = [("A", "1"), ("B", "3")] :=
  ⟨merge_sources_priority_stable _ _ (by decide), by decide⟩

theorem dictHasKey_append_single {γ : Type} (d : List (String × γ))
    (k p : String) (v : γ) :
    dictHasKey (d ++ [(k, v)]) p = (dictHasKey d p || decide (k = p)) := by
  induction d with
  | nil => by_cases h : k = p <;> simp [dictHasKey, dictFind, h]
  | cons hd tl ih =>
    by_cases h : hd.1 = p
    · simp [dictHasKey, dictFind, h]
    · simp only [List.cons_append]
      simp only [dictHasKey, dictFind, h, if_false] at ih ⊢
      exact ih

theorem hasKey_foldl_filter {β γ : Type} (cond : String × β → Bool)
    (build : String × β → γ) (configs : List (String × β))
    (acc : List (String × γ)) (p : String) :
    dictHasKey
        (configs.foldl
          (fun a pc => if cond pc then a ++ [(pc.1, build pc)] else a) acc) p
      = (dictHasKey acc p ||
          configs.any (fun pc => decide (pc.1 = p) && cond pc)) := by
  induction configs generalizing acc with
  | nil => simp
  | cons pc rest ih =>
    simp only [List.foldl_cons, List.any_cons]
    rw [ih]
    by_cases hc : cond pc
    · rw [if_pos hc, dictHasKey_append_single]
      by_cases hp : pc.1 = p <;> simp [hc, hp, Bool.or_assoc]
    · rw [if_neg hc]
      simp [hc]

/-- C3: a platform appears in `determine_configured merged` iff every one
of its `required_vars` has a non-empty value in the merged mapping
(`merged_env.get(var)` truthy). -/
theorem configured_iff_required_nonempty (merged : EnvDict)
    (platform : String) (cfg : PlatformConfig)
    (hp : dictFind PLATFORM_CONFIGS platform = some cfg) :
    dictHasKey (determine_configured merged) platform = true ↔
      ∀ v ∈ cfg.required_vars, dictGetD merged v "" ≠ "" := by
  have hkey :
      dictHasKey (determine_configured merged) platform
        = PLATFORM_CONFIGS.any
            (fun pc => decide (pc.1 = platform) &&
              pc.2.required_vars.all (fun v => truthyGet merged v)) := by
    unfold determine_configured
    rw [hasKey_foldl_filter
      (fun pc => pc.2.required_vars.all (fun v => truthyGet merged v))
      (fun pc => pc.2.required_vars.map (fun v => (v, dictGetD merged v "")))
      PLATFORM_CONFIGS [] platform]
    simp [dictHasKey, dictFind]
  rw [hkey]
  have hcases :
      (platform = "confluence" ∧ cfg = confluenceConfig) ∨
      (platform = "jira" ∧ cfg = jiraConfig) ∨
      (platform = "splunk" ∧ cfg = splunkConfig) ∨
      (platform = "gitlab" ∧ cfg = gitlabConfig) := by
    by_cases h1 : "confluence" = platform
    · left
      refine ⟨h1.symm, ?_⟩
      rw [PLATFORM_CONFIGS, dictFind, if_pos h1] at hp
      exact (Option.some.injEq _ _ ▸ hp.symm : _)
    · by_cases h2 : "jira" = platform
      · right; left
        refine ⟨h2.symm, ?_⟩
        simp only [PLATFORM_CONFIGS, dictFind, h1, h2, if_false, if_true,
          Option.some.injEq] at hp
        exact hp.symm
      · by_cases h3 : "splunk" = platform
        · right; right; left
          refine ⟨h3.symm, ?_⟩
          simp only [PLATFORM_CONFIGS, dictFind, h1, h2, h3, if_false, if_true,
            Option.some.injEq] at hp
          exact hp.symm
        · by_cases h4 : "gitlab" = platform
          · right; right; right
            refine ⟨h4.symm, ?_⟩
            simp only [PLATFORM_CONFIGS, dictFind, h1, h2, h3, h4, if_false,
              if_true, Option.some.injEq] at hp
            exact hp.symm
          · simp [PLATFORM_CONFIGS, dictFind, h1, h2, h3, h4] at hp
  rcases hcases with ⟨hpl, hcfg⟩ | ⟨hpl, hcfg⟩ | ⟨hpl, hcfg⟩ | ⟨hpl, hcfg⟩ <;>
    subst hpl <;> subst hcfg <;>
    simp [PLATFORM_CONFIGS, List.all_eq_true, truthyGet, dictGetD]

/-- C3 witness: a platform whose required fields are only partially
present (Splunk with just its URL set) is reported not-configured, and
the iff instance holds. -/
theorem configured_iff_required_nonempty_witness :
    (dictHasKey (determine_configured [("SPLUNK_SITE_URL", "https://s:8089")]) "splunk" = true ↔
      ∀ v ∈ splunkConfig.required_vars,
        dictGetD [("SPLUNK_SITE_URL", "https://s:8089")] v "" ≠ "") ∧
    dictHasKey (determine_configured [("SPLUNK_SITE_URL", "https://s:8089")]) "splunk" = false :=
  ⟨configured_iff_required_nonempty _ _ _ rfl, by decide⟩

/-- C6 counterexample: a credentials mapping with the GitLab token
present is nonetheless reported invalid — `validate_credentials` has no
gitlab branch and returns `(False, "Unknown platform: gitlab")`, so the
token is not accepted without verification. -/
theorem gitlab_token_not_accepted :
    (validate_credentials stubWorld "gitlab" [("GITLAB_TOKEN", "glpat-abc123")]).1 = false ∧
    validate_credentials stubWorld "gitlab" [("GITLAB_TOKEN", "glpat-abc123")]
      = (false, "Unknown platform: gitlab") :=
  ⟨rfl, rfl⟩

/-- C6 (amended): validating the gitlab platform indeed performs no
network call — the result is the same for every oracle and every
credentials mapping — but the dispatch falls through to its default
branch and returns `(False, "Unknown platform: gitlab")`, so a configured
GitLab platform is reported invalid rather than accepted. -/
theorem gitlab_validation_no_network_but_invalid (w : World)
    (credentials : EnvDict) :
    validate_credentials w "gitlab" credentials
      = (false, "Unknown platform: gitlab") := by
  unfold validate_credentials
  rw [if_neg (by decide), if_neg (by decide), if_neg (by decide)]
  rfl

/-- C9: `validate_credentials` dispatches Splunk validation with the URL
taken from key `SPLUNK_URL`, which is not among the platform's declared
`required_vars` (`SPLUNK_SITE_URL`, `SPLUNK_USERNAME`,
`SPLUNK_PASSWORD`); hence any mapping keyed by those required fields
hands `validate_splunk` the empty string as its base URL. -/
theorem splunk_dispatch_uses_splunk_url (w : World) (credentials : EnvDict)
    (hkeys : ∀ k ∈ credentials.map Prod.fst, k ∈ splunkConfig.required_vars) :
    validate_credentials w "splunk" credentials =
      validate_splunk w.splunkPost w.environ w.isFile ""
        (dictGetD credentials "SPLUNK_USERNAME" "")
        (dictGetD credentials "SPLUNK_PASSWORD" "") := by
  have hnone : dictFind credentials "SPLUNK_URL" = none := by
    apply dictFind_eq_none_of_not_mem
    intro hmem
    have hin := hkeys _ hmem
    simp [splunkConfig] at hin
  unfold validate_credentials
  rw [if_neg (by decide), if_neg (by decide), if_pos rfl]
  simp [dictGetD, hnone]

/-- C9 witness: a mapping holding exactly the Splunk required fields is
dispatched to `validate_splunk` with an empty URL. -/
theorem splunk_dispatch_uses_splunk_url_witness :
    validate_credentials stubWorld "splunk"
        [("SPLUNK_SITE_URL", "https://splunk.example.com:8089"),
         ("SPLUNK_USERNAME", "admin"), ("SPLUNK_PASSWORD", "pw")] =
      validate_splunk stubWorld.splunkPost stubWorld.environ stubWorld.isFile
        "" "admin" "pw" := by
  have h := splunk_dispatch_uses_splunk_url stubWorld
    [("SPLUNK_SITE_URL", "https://splunk.example.com:8089"),
     ("SPLUNK_USERNAME", "admin"), ("SPLUNK_PASSWORD", "pw")]
    (by decide)
  simpa [dictGetD, dictFind] using h

theorem dictFind_eq_some_mem {α : Type} (d : List (String × α)) (k : String)
    (v : α) (h : dictFind d k = some v) : (k, v) ∈ d := by
  induction d with
  | nil => simp [dictFind] at h
  | cons hd tl ih =>
    by_cases hk : hd.1 = k
    · rw [dictFind, if_pos hk] at h
      have hv : hd.2 = v := Option.some.inj h
      have hhd : hd = (k, v) := by rw [← hk, ← hv]
      exact List.mem_cons.mpr (Or.inl hhd.symm)
    · rw [dictFind, if_neg hk] at h
      exact List.mem_cons_of_mem _ (ih h)

theorem svr_foldl_snd (status : List (String × VStatus)) (ps : List String)
    (b c : Bool) :
    (ps.foldl
        (fun (acc : Bool × Bool) platform =>
          match dictFind status platform with
          | some st => (acc.1 && st.valid, true)
          | none => acc) (b, c)).2
      = (c || ps.any (fun p => dictHasKey status p)) := by
  induction ps generalizing b c with
  | nil => simp
  | cons p rest ih =>
    simp only [List.foldl_cons, List.any_cons]
    cases hf : dictFind status p with
    | none => rw [ih]; simp [dictHasKey, hf]
    | some st =>
      rw [ih]
      simp [dictHasKey, hf]

theorem svr_foldl_fst (status : List (String × VStatus)) (ps : List String)
    (b c : Bool) :
    (ps.foldl
        (fun (acc : Bool × Bool) platform =>
          match dictFind status platform with
          | some st => (acc.1 && st.valid, true)
          | none => acc) (b, c)).1
      = (b && ps.all (fun p =>
          match dictFind status p with
          | some st => st.valid
          | none => true)) := by
  induction ps generalizing b c with
  | nil => simp
  | cons p rest ih =>
    simp only [List.foldl_cons, List.all_cons]
    cases hf : dictFind status p with
    | none => rw [ih]; simp [hf]
    | some st =>
      rw [ih]
      simp [hf, Bool.and_assoc]

theorem show_validation_results_eq (status : List (String × VStatus))
    (configured : List (String × EnvDict)) :
    show_validation_results status configured
      = (all_platforms.any (fun p => dictHasKey status p) &&
          all_platforms.all (fun p =>
            match dictFind status p with
            | some st => st.valid
            | none => true)) := by
  unfold show_validation_results
  simp only [svr_foldl_snd, svr_foldl_fst, Bool.false_or, Bool.true_and]
  cases all_platforms.any (fun p => dictHasKey status p) <;> simp

/-- C7 (amended): in validate-only mode the process exits 0 iff at least
one platform is configured and every *configured* platform is valid, and
exits 1 iff some configured platform is invalid or none is configured.
Platforms absent from the validation status ("not configured") do not by
themselves force exit code 1. -/
theorem validate_only_exit_code_spec (status : List (String × VStatus))
    (configured : List (String × EnvDict))
    (hsub : ∀ pr ∈ status, pr.1 ∈ all_platforms)
    (hnd : (status.map Prod.fst).Nodup) :
    (validate_only_exit_code status configured = 0 ↔
      status ≠ [] ∧ ∀ pr ∈ status, pr.2.valid = true) ∧
    (validate_only_exit_code status configured = 1 ↔
      ¬(status ≠ [] ∧ ∀ pr ∈ status, pr.2.valid = true)) := by
  have hany : all_platforms.any (fun p => dictHasKey status p) = true ↔
      status ≠ [] := by
    constructor
    · intro h hempty
      subst hempty
      simp [dictHasKey, dictFind] at h
    · intro h
      cases status with
      | nil => exact absurd rfl h
      | cons pr rest =>
        rw [List.any_eq_true]
        refine ⟨pr.1, hsub pr (List.mem_cons_self _ _), ?_⟩
        rw [dictHasKey, dictFind_isSome_mem]
        exact List.mem_map_of_mem Prod.fst (List.mem_cons_self _ _)
  have hall : all_platforms.all (fun p =>
      match dictFind status p with
      | some st => st.valid
      | none => true) = true ↔ ∀ pr ∈ status, pr.2.valid = true := by
    rw [List.all_eq_true]
    constructor
    · intro h pr hpr
      have hp := h pr.1 (hsub pr hpr)
      rw [dictFind_mem status pr.1 pr.2 hnd hpr] at hp
      exact hp
    · intro h p _
      cases hf : dictFind status p with
      | none => rfl
      | some st => exact h (p, st) (dictFind_eq_some_mem status p st hf)
  have hcode : validate_only_exit_code status configured
      = if show_validation_results status configured then 0 else 1 := rfl
  rw [hcode, show_validation_results_eq]
  set b := all_platforms.any (fun p => dictHasKey status p) &&
    all_platforms.all (fun p =>
      match dictFind status p with
      | some st => st.valid
      | none => true) with hb
  have hiff : b = true ↔
      (status ≠ [] ∧ ∀ pr ∈ status, pr.2.valid = true) := by
    rw [hb, Bool.and_eq_true, hany, hall]
  constructor
  · constructor
    · intro h
      apply hiff.mp
      cases hbv : b with
      | false => rw [hbv] at h; exact absurd h (by decide)
      | true => rfl
    · intro hx
      rw [hiff.mpr hx]
      rfl
  · constructor
    · intro h hx
      rw [hiff.mpr hx] at h
      exact absurd h (by decide)
    · intro hx
      cases hbv : b with
      | false => rfl
      | true => exact absurd (hiff.mp hbv) hx

/-- C7 counterexample: with only Confluence configured and valid — JIRA,
Splunk and GitLab missing (not configured) — validate-only exits 0, not
1 as the claim requires for a missing platform. -/
theorem validate_only_missing_platform_exits_zero :
    validate_only_exit_code
        [("confluence", ⟨true, "Connected", "x.atlassian.net"⟩)] [] = 0 ∧
      dictHasKey [("confluence",
        (⟨true, "Connected", "x.atlassian.net"⟩ : VStatus))] "jira" = false :=
  ⟨rfl, rfl⟩

/-- C7 witness: two valid configured platforms exit 0; one invalid
configured platform exits 1. -/
theorem validate_only_exit_code_spec_witness :
    validate_only_exit_code
        [("confluence", ⟨true, "Connected", "a"⟩),
         ("splunk", ⟨true, "Connected", "b"⟩)] [] = 0 ∧
      validate_only_exit_code
        [("jira", ⟨false, "Invalid credentials (401 Unauthorized)", "c"⟩)] [] = 1 :=
  ⟨(validate_only_exit_code_spec _ _ (by decide) (by decide)).1.mpr (by decide),
    (validate_only_exit_code_spec _ _ (by decide) (by decide)).2.mpr (by decide)⟩

/-- C4: Confluence validation walks its endpoint list with status-driven
fallback.  (i) If the first endpoint answers 404 or 403 and the second
answers 200, validation succeeds; (ii) a 401 from the first endpoint
fails immediately with "Invalid credentials" — for every behaviour of the
remaining endpoints, so none of them is consulted; (iii) a 401 met after
a 404/403 fallback likewise stops the chain. -/
theorem confluence_endpoint_fallback (net : HttpOracle)
    (url email token : String) (j1 j2 : Option UserJson) (d : UserJson) :
    ((net ⟨confluenceUrl1 url, email, token⟩ = .resp 404 j1 ∨
        net ⟨confluenceUrl1 url, email, token⟩ = .resp 403 j1) →
      net ⟨confluenceUrl2 url, email, token⟩ = .resp 200 (some d) →
      validate_confluence net url email token = (true, "Connected")) ∧
    (net ⟨confluenceUrl1 url, email, token⟩ = .resp 401 j1 →
      validate_confluence net url email token
        = (false, "Invalid credentials (401 Unauthorized)")) ∧
    ((net ⟨confluenceUrl1 url, email, token⟩ = .resp 404 j1 ∨
        net ⟨confluenceUrl1 url, email, token⟩ = .resp 403 j1) →
      net ⟨confluenceUrl2 url, email, token⟩ = .resp 401 j2 →
      validate_confluence net url email token
        = (false, "Invalid credentials (401 Unauthorized)")) := by
  refine ⟨?_, ?_, ?_⟩
  · rintro (h1 | h1) h2 <;>
      · simp only [confluenceUrl1, confluenceUrl2] at h1 h2
        simp [validate_confluence, confluence_endpoints, confluenceLoop, h1, h2]
  · intro h1
    simp only [confluenceUrl1] at h1
    simp [validate_confluence, confluence_endpoints, confluenceLoop, h1]
  · rintro (h1 | h1) h2 <;>
      · simp only [confluenceUrl1, confluenceUrl2] at h1 h2
        simp [validate_confluence, confluence_endpoints, confluenceLoop, h1, h2]

/-- C4 witness: the three scenarios at concrete oracles. -/
theorem confluence_endpoint_fallback_witness :
    validate_confluence netFallback "https://c.atlassian.net" "e" "t"
        = (true, "Connected") ∧
      validate_confluence netAll401 "https://c.atlassian.net" "e" "t"
        = (false, "Invalid credentials (401 Unauthorized)") ∧
      validate_confluence net403Then401 "https://c.atlassian.net" "e" "t"
        = (false, "Invalid credentials (401 Unauthorized)") :=
  ⟨(confluence_endpoint_fallback netFallback "https://c.atlassian.net" "e" "t"
      none none {}).1 (Or.inl (by decide)) (by decide),
    (confluence_endpoint_fallback netAll401 "https://c.atlassian.net" "e" "t"
      none none {}).2.1 (by decide),
    (confluence_endpoint_fallback net403Then401 "https://c.atlassian.net" "e" "t"
      none none {}).2.2 (Or.inr (by decide)) (by decide)⟩

theorem apiStatus_ne_accessDenied (x : String) :
    ("API returned status " ++ x) ≠ "Access denied - check API token permissions" := by
  intro h
  have hd := congrArg String.data h
  rw [String.data_append] at hd
  have ha : "API returned status ".data
      = 'A' :: 'P' :: "I returned status ".data := rfl
  have hb : "Access denied - check API token permissions".data
      = 'A' :: 'c' :: "cess denied - check API token permissions".data := rfl
  rw [ha, hb] at hd
  simp at hd

theorem confluenceFinal_access_iff (s : Nat) :
    confluenceFinal (some s)
        = (false, "Access denied - check API token permissions") ↔ s = 403 := by
  constructor
  · intro h
    by_cases h403 : s = 403
    · exact h403
    · exfalso
      rw [confluenceFinal, if_neg h403] at h
      by_cases h404 : s = 404
      · rw [if_pos h404] at h
        exact absurd h (by decide)
      · rw [if_neg h404] at h
        by_cases h0 : s = 0
        · rw [if_neg (fun hne => hne h0)] at h
          exact absurd h (by decide)
        · rw [if_pos h0] at h
          exact apiStatus_ne_accessDenied (toString s) (congrArg Prod.snd h)
  · intro h
    subst h
    rfl

/-- C5 counterexample: the first two Confluence endpoints answer 404 and
only the last answers 403, yet the overall result is the access-denied
message — so the message does not require every endpoint to have
returned 403. -/
theorem confluence_access_denied_without_all_403 :
    netLast403 ⟨confluenceUrl1 "https://c.atlassian.net", "e", "t"⟩ = .resp 404 none ∧
    netLast403 ⟨confluenceUrl2 "https://c.atlassian.net", "e", "t"⟩ = .resp 404 none ∧
    netLast403 ⟨confluenceUrl3 "https://c.atlassian.net", "e", "t"⟩ = .resp 403 none ∧
    validate_confluence netLast403 "https://c.atlassian.net" "e" "t"
      = (false, "Access denied - check API token permissions") :=
  ⟨by decide, by decide, by decide, by decide⟩

/-- C5 (amended): an HTTP 403 causes fallback to the next endpoint (403
then 200 succeeds), and when every endpoint is exhausted with a plain
non-200/non-401 status the access-denied message is reported iff the
*last* endpoint's recorded status was 403 — whatever statuses the
earlier endpoints returned. -/
theorem confluence_access_denied_iff_last_403 (net : HttpOracle)
    (url email token : String) (s1 s2 s3 : Nat)
    (j1 j2 j3 : Option UserJson) (d : UserJson) :
    (net ⟨confluenceUrl1 url, email, token⟩ = .resp 403 j1 →
      net ⟨confluenceUrl2 url, email, token⟩ = .resp 200 (some d) →
      validate_confluence net url email token = (true, "Connected")) ∧
    (net ⟨confluenceUrl1 url, email, token⟩ = .resp s1 j1 →
      net ⟨confluenceUrl2 url, email, token⟩ = .resp s2 j2 →
      net ⟨confluenceUrl3 url, email, token⟩ = .resp s3 j3 →
      s1 ≠ 200 → s1 ≠ 401 → s2 ≠ 200 → s2 ≠ 401 → s3 ≠ 200 → s3 ≠ 401 →
      (validate_confluence net url email token
          = (false, "Access denied - check API token permissions")
        ↔ s3 = 403)) := by
  constructor
  · intro h1 h2
    simp only [confluenceUrl1, confluenceUrl2] at h1 h2
    simp [validate_confluence, confluence_endpoints, confluenceLoop, h1, h2]
  · intro h1 h2 h3 hs1a hs1b hs2a hs2b hs3a hs3b
    simp only [confluenceUrl1, confluenceUrl2, confluenceUrl3] at h1 h2 h3
    have hred : validate_confluence net url email token
        = confluenceFinal (some s3) := by
      simp [validate_confluence, confluence_endpoints, confluenceLoop,
        h1, h2, h3, hs1a, hs1b, hs2a, hs2b, hs3a, hs3b]
    rw [hred]
    exact confluenceFinal_access_iff s3

/-- C5 witness: 403-then-200 succeeds; a chain ending in a non-403
status (500, 404, 410) does not produce the access-denied message. -/
theorem confluence_access_denied_iff_last_403_witness :
    validate_confluence net403Then200 "https://c.atlassian.net" "e" "t"
        = (true, "Connected") ∧
      ¬ validate_confluence netStatuses "https://c.atlassian.net" "e" "t"
          = (false, "Access denied - check API token permissions") :=
  ⟨(confluence_access_denied_iff_last_403 net403Then200
      "https://c.atlassian.net" "e" "t" 0 0 0 none none none {}).1
      (by decide) (by decide),
    fun h =>
      absurd
        (((confluence_access_denied_iff_last_403 netStatuses
            "https://c.atlassian.net" "e" "t" 500 404 410 none none none {}).2
          (by decide) (by decide) (by decide) (by decide) (by decide)
          (by decide) (by decide) (by decide) (by decide)).mp h)
        (by decide)⟩

theorem atlassianPattern_decomp (u : String) (h : atlassianPattern u = true) :
    ∃ label : List Char, label ≠ [] ∧ label.all isAtlassianLabelChar = true ∧
      u.data = "https://".data ++ label ++ ".atlassian.net".data := by
  unfold atlassianPattern at h
  cases hp : dropPrefixCh u.data "https://".data with
  | none => simp only [hp] at h; exact absurd h (by decide)
  | some rest =>
    simp only [hp] at h
    cases hq : dropSuffixCh rest ".atlassian.net".data with
    | none => simp only [hq] at h; exact absurd h (by decide)
    | some label =>
      simp only [hq, Bool.and_eq_true] at h
      refine ⟨label, ?_, h.2, ?_⟩
      · intro he
        subst he
        simp at h
      · have h1 := dropPrefixCh_eq_some _ _ _ hp
        have h2 := dropSuffixCh_eq_some _ _ _ hq
        rw [h1, h2, List.append_assoc]

/-- C8 counterexample: the input's host is under `evil.com`, not under
`.atlassian.net`, yet validation fails with the generic format message
instead of the domain-specific `*.atlassian.net` message (the domain
check is a substring test, which this URL passes). -/
theorem atlassian_url_nonatlassian_host_generic_message :
    validate_atlassian_url "https://x.atlassian.net.evil.com"
      = (false, "Invalid Atlassian URL format") := by decide

/-- C8 (amended): for a success on an input lacking a scheme the result
is `https://` prepended to the whitespace- and slash-stripped input; any
successful result decomposes as `https://<label>.atlassian.net` exactly
(hence every input whose host is not under `.atlassian.net` fails); the
domain-specific message is produced exactly when the normalized input
lacks the substring `.atlassian.net`, and other malformed inputs fail
with the generic format message. -/
theorem atlassian_url_normalization (s : String) :
    (pyStartsWith (rstripSlash (pyStrip s)) "http" = false →
      (validate_atlassian_url s).1 = true →
      (validate_atlassian_url s).2 = "https://" ++ rstripSlash (pyStrip s)) ∧
    ((validate_atlassian_url s).1 = true →
      ∃ label : List Char, label ≠ [] ∧ label.all isAtlassianLabelChar = true ∧
        ((validate_atlassian_url s).2).data
          = "https://".data ++ label ++ ".atlassian.net".data) ∧
    (s ≠ "" → pyContains (normalizeAtlassianUrl s) ".atlassian.net" = false →
      validate_atlassian_url s
        = (false, "Must be an Atlassian Cloud URL (*.atlassian.net)")) ∧
    (s ≠ "" → atlassianPattern (normalizeAtlassianUrl s) = false →
      (validate_atlassian_url s).1 = false) := by
  by_cases hs : s = ""
  · subst hs
    refine ⟨?_, ?_, ?_, ?_⟩
    · intro _ h
      exact absurd h (by decide)
    · intro h
      exact absurd h (by decide)
    · intro h
      exact absurd rfl h
    · intro h
      exact absurd rfl h
  · have hred : validate_atlassian_url s =
        (if !pyContains (normalizeAtlassianUrl s) ".atlassian.net" then
          (false, "Must be an Atlassian Cloud URL (*.atlassian.net)")
        else if !atlassianPattern (normalizeAtlassianUrl s) then
          (false, "Invalid Atlassian URL format")
        else (true, normalizeAtlassianUrl s)) := by
      rw [validate_atlassian_url, if_neg hs]
    refine ⟨?_, ?_, ?_, ?_⟩
    · intro hns hsucc
      rw [hred] at hsucc ⊢
      by_cases hc : pyContains (normalizeAtlassianUrl s) ".atlassian.net"
      · by_cases hpat : atlassianPattern (normalizeAtlassianUrl s)
        · rw [if_neg (by simp [hc]), if_neg (by simp [hpat])]
          rw [normalizeAtlassianUrl, if_neg (by simp [hns])]
        · rw [if_neg (by simp [hc]), if_pos (by simp [hpat])] at hsucc
          exact absurd hsucc (by decide)
      · rw [if_pos (by simp [hc])] at hsucc
        exact absurd hsucc (by decide)
    · intro hsucc
      rw [hred] at hsucc ⊢
      by_cases hc : pyContains (normalizeAtlassianUrl s) ".atlassian.net"
      · by_cases hpat : atlassianPattern (normalizeAtlassianUrl s)
        · rw [if_neg (by simp [hc]), if_neg (by simp [hpat])]
          exact atlassianPattern_decomp _ hpat
        · rw [if_neg (by simp [hc]), if_pos (by simp [hpat])] at hsucc
          exact absurd hsucc (by decide)
      · rw [if_pos (by simp [hc])] at hsucc
        exact absurd hsucc (by decide)
    · intro _ hc
      rw [hred, if_pos (by simp [hc])]
    · intro _ hpat
      rw [hred]
      by_cases hc : pyContains (normalizeAtlassianUrl s) ".atlassian.net"
      · rw [if_neg (by simp [hc]), if_pos (by simp [hpat])]
      · rw [if_pos (by simp [hc])]

/-- C8 witness: a scheme-less valid input is normalized by prepending
`https://`; a non-Atlassian input without the substring fails with the
domain message; a malformed input containing the substring fails. -/
theorem atlassian_url_normalization_witness :
    (validate_atlassian_url "mycompany.atlassian.net").2
        = "https://" ++ rstripSlash (pyStrip "mycompany.atlassian.net") ∧
      validate_atlassian_url "evil.com"
        = (false, "Must be an Atlassian Cloud URL (*.atlassian.net)") ∧
      (validate_atlassian_url "http://x.atlassian.netx").1 = false :=
  ⟨(atlassian_url_normalization "mycompany.atlassian.net").1
      (by decide) (by decide),
    (atlassian_url_normalization "evil.com").2.2.1 (by decide) (by decide),
    (atlassian_url_normalization "http://x.atlassian.netx").2.2.2
      (by decide) (by decide)⟩

theorem dictSet_keys (d : EnvDict) (k v k' : String)
    (h : k' ∈ (dictSet d k v).map Prod.fst) :
    k' = k ∨ k' ∈ d.map Prod.fst := by
  induction d with
  | nil =>
    rw [dictSet] at h
    simp only [List.map_cons, List.map_nil, List.mem_singleton] at h
    exact Or.inl h
  | cons hd tl ih =>
    by_cases hk : hd.1 = k
    · rw [dictSet, if_pos hk] at h
      simp only [List.map_cons, List.mem_cons] at h
      rcases h with h | h
      · exact Or.inl h
      · exact Or.inr (by simp [h])
    · rw [dictSet, if_neg hk] at h
      simp only [List.map_cons, List.mem_cons] at h
      rcases h with h | h
      · exact Or.inr (by simp [h])
      · rcases ih h with h2 | h2
        · exact Or.inl h2
        · exact Or.inr (by simp [h2])

theorem collectFields_keys (existing_env : EnvDict) (sources : List Source)
    (prompts : List (String × PromptConfig)) (creds : EnvDict)
    (inputs : List String) (m : EnvDict) (restInputs : List String)
    (h : collectFields existing_env sources prompts creds inputs
      = some (m, restInputs)) :
    ∀ k ∈ m.map Prod.fst, k ∈ creds.map Prod.fst ∨ k ∈ prompts.map Prod.fst := by
  induction prompts generalizing creds inputs with
  | nil =>
    rw [collectFields] at h
    simp only [Option.some.injEq, Prod.mk.injEq] at h
    intro k hk
    rw [← h.1] at hk
    exact Or.inl hk
  | cons p rest' ih =>
    obtain ⟨var_name, pc⟩ := p
    intro k hk
    rw [collectFields] at h
    by_cases hres :
        (if !sources.isEmpty then (resolve_env_var var_name sources).1 else "") ≠ ""
    · rw [if_pos hres] at h
      rcases ih _ _ h k hk with hc | hp
      · rcases dictSet_keys _ _ _ _ hc with he | hc2
        · exact Or.inr (by simp [he])
        · exact Or.inl hc2
      · exact Or.inr (by simp [hp])
    · rw [if_neg hres] at h
      cases heq : promptLoop
          (if dictGetD existing_env var_name "" ≠ ""
            then dictGetD existing_env var_name "" else pc.default) pc inputs with
      | none =>
        simp only [heq] at h
        exact Option.noConfusion h
      | some vi =>
        simp only [heq] at h
        by_cases hv : vi.1 ≠ ""
        · rw [if_pos hv] at h
          rcases ih _ _ h k hk with hc | hp
          · rcases dictSet_keys _ _ _ _ hc with he | hc2
            · exact Or.inr (by simp [he])
            · exact Or.inl hc2
          · exact Or.inr (by simp [hp])
        · rw [if_neg hv] at h
          rcases ih _ _ h k hk with hc | hp
          · exact Or.inl hc
          · exact Or.inr (by simp [hp])

/-- C10: credentials collected for Confluence carry only
`CONFLUENCE_`-prefixed keys (its three prompt fields), so when the
orchestrator copies the Confluence mapping and validates it as JIRA
(`credentials["confluence"].copy()` then `validate_credentials("jira",
creds)`), the JIRA validator receives empty url, email and token. -/
theorem confluence_reuse_gives_jira_empty_creds (w : World)
    (inputs : List String) (existing_env : EnvDict) (sources : List Source)
    (m : EnvDict) (restInputs : List String)
    (h : collect_credentials inputs "confluence" existing_env sources
      = some (m, restInputs)) :
    (∀ k ∈ m.map Prod.fst, pyStartsWith k "CONFLUENCE_" = true) ∧
    validate_credentials w "jira" m = validate_jira w.http "" "" "" := by
  have h' : collectFields existing_env sources confluenceConfig.prompts [] inputs
      = some (m, restInputs) := h
  have hkeys : ∀ k ∈ m.map Prod.fst,
      k ∈ confluenceConfig.prompts.map Prod.fst := by
    intro k hk
    rcases collectFields_keys _ _ _ _ _ _ _ h' k hk with hc | hp
    · simp at hc
    · exact hp
  have hkeys3 : ∀ k ∈ m.map Prod.fst,
      k = "CONFLUENCE_SITE_URL" ∨ k = "CONFLUENCE_EMAIL" ∨
        k = "CONFLUENCE_API_TOKEN" := by
    intro k hk
    have hp := hkeys k hk
    simpa [confluenceConfig] using hp
  constructor
  · intro k hk
    rcases hkeys3 k hk with he | he | he <;> rw [he] <;> decide
  · have hnone : ∀ key : String,
        key = "JIRA_SITE_URL" ∨ key = "JIRA_EMAIL" ∨ key = "JIRA_API_TOKEN" →
        dictFind m key = none := by
      intro key hkey
      apply dictFind_eq_none_of_not_mem
      intro hmem
      rcases hkeys3 key hmem with he | he | he <;>
        rcases hkey with hk2 | hk2 | hk2 <;>
          rw [he] at hk2 <;> exact absurd hk2 (by decide)
    unfold validate_credentials
    rw [if_neg (by decide), if_pos rfl]
    simp [dictGetD, hnone "JIRA_SITE_URL" (Or.inl rfl),
      hnone "JIRA_EMAIL" (Or.inr (Or.inl rfl)),
      hnone "JIRA_API_TOKEN" (Or.inr (Or.inr rfl))]

/-- C10 witness: the end-to-end inputs of §8 collected for Confluence,
then validated as JIRA, reach `validate_jira` with empty credentials. -/
theorem confluence_reuse_gives_jira_empty_creds_witness :
    validate_credentials stubWorld "jira"
        [("CONFLUENCE_SITE_URL", "https://mycompany.atlassian.net"),
         ("CONFLUENCE_EMAIL", "user@co.com"),
         ("CONFLUENCE_API_TOKEN", "tok123")]
      = validate_jira stubWorld.http "" "" "" :=
  (confluence_reuse_gives_jira_empty_creds stubWorld
    ["mycompany.atlassian.net", "user@co.com", "tok123"] [] []
    [("CONFLUENCE_SITE_URL", "https://mycompany.atlassian.net"),
     ("CONFLUENCE_EMAIL", "user@co.com"),
     ("CONFLUENCE_API_TOKEN", "tok123")] [] (by decide)).2

end Setup
